import Mathlib

/-!
Verification development for the AIVulnAgent remediation engine.

The definitions below are a shallow embedding of the TypeScript sources:

* `src/backend/services/pendingRebuilds.ts` — the pending-rebuild
  correlation store (`registerPendingRebuild`, `resolvePendingRebuild`,
  `listPendingRebuilds`, the 30-minute expiry timer);
* `src/backend/agents/state.ts` — the `RemediationStateAnnotation`
  reducers (`stepLog` appends, every other field overwrites);
* `src/backend/agents/agentNodes.ts` — the stage functions
  (`classifyVuln`, `tryRebuild`, `searchRAG`, `researchFix`,
  `createPRNode`, `createTagWorkflowNode`, `storeInRAG`);
* `src/backend/agents/agentMap.ts` — the routing graph
  (`buildRemediationAgentMap`);
* `src/backend/tools/githubTools.ts` — the observable part of
  `createApprovalTagWorkflow` (the workflow-dispatch inputs).

External collaborators (the LLM, the search index, the GitHub API) are
modelled as explicit inputs: each stage receives the collaborator's
answer (or its failure) as a parameter, mirroring "a stage is a pure
function of the state plus its external collaborator".  JavaScript
`undefined`/`""` truthiness is modelled explicitly where the source
relies on it.
-/

namespace AIVulnAgent

/-- JavaScript string falsiness: `undefined` (here `none`) and the empty
string are falsy, every other string is truthy. -/
def jsFalsy : Option String → Bool
  | none => true
  | some s => s == ""

/-- JavaScript string truthiness (`!!x`). -/
def jsTruthy (o : Option String) : Bool := !(jsFalsy o)

/-- Does `needle` start `hay`? Helper for substring search. -/
def listStarts : List Char → List Char → Bool
  | _, [] => true
  | [], _ :: _ => false
  | a :: as, b :: bs => a == b && listStarts as bs

/-- Does `hay` contain `needle` as a contiguous substring? -/
def listHasInfix : List Char → List Char → Bool
  | [], needle => needle.isEmpty
  | hay@(_ :: rest), needle => listStarts hay needle || listHasInfix rest needle

/-- String-level substring containment, used to model JavaScript regex
tests such as `/node_modules|site-packages|vendor/.test(s)`. -/
def strHasSubstr (hay needle : String) : Bool :=
  listHasInfix hay.toList needle.toList

/-- Model of the regex test `/node_modules|site-packages|vendor/.test(s)`
from the classification fallback in `agentNodes.ts`. -/
def osPathMarkerTest (s : String) : Bool :=
  strHasSubstr s "node_modules" || strHasSubstr s "site-packages" || strHasSubstr s "vendor"

/-- Canonical vulnerability record (`src/backend/types/index.ts`,
interface `Vulnerability`).  Optional fields are `Option`. -/
structure Vulnerability where
  id : String
  cveId : String
  packageName : String
  currentVersion : String
  fixedVersion : Option String
  severity : String
  description : String
  source : String
  imageName : Option String
  filePath : Option String
  createdAt : String
  repoOwner : Option String
  repoName : Option String
deriving Repr, DecidableEq

/-- A stored fix record (`src/backend/types/index.ts`, `StoredFix`). -/
structure StoredFix where
  id : String
  cveId : String
  category : String
  packageName : String
  fixDescription : String
  fixSteps : String
  patchContent : Option String
  dockerfileChanges : Option String
  prUrl : Option String
  tagName : Option String
  resolvedAt : String
deriving Repr, DecidableEq

/-- One residual finding inside the rebuild scan payload
(`RebuildScanResult.scanResults.vulnerabilities[i]`). -/
structure ScanFinding where
  cveId : String
  packageName : String
  severity : String
  fixedVersion : Option String
deriving Repr, DecidableEq

/-- The scan summary inside the rebuild callback payload. -/
structure ScanSummary where
  vulnerabilities : List ScanFinding
  totalCount : Nat
  scanTool : String
deriving Repr, DecidableEq

/-- The webhook callback payload (`src/backend/types/index.ts`,
`RebuildScanResult`). -/
structure RebuildScanResult where
  vulnId : String
  cveId : String
  repoOwner : String
  repoName : String
  imageName : String
  tag : String
  workflowRunId : Nat
  scanResults : ScanSummary
  buildSuccess : Bool
  timestamp : String
deriving Repr, DecidableEq

/-!
## Pending-rebuild correlation store (`src/backend/services/pendingRebuilds.ts`)

The store is a module-level `Map` keyed by `vulnId`, plus, per entry, a
promise waiter (`resolve`/`reject` handles) and a `setTimeout` timer.
We model waiters and timers by numeric handles allocated from a counter:
completing a waiter appends `(waiterId, outcome)` to a completion log
(a JS promise settles at most once; the log lets us state that), and
`clearTimeout` appends the timer id to a cancellation list.  A timer
that has been cleared never runs its callback — that is a JavaScript
runtime guarantee, reflected in `stepStore` below.
-/

/-- How a pending-rebuild waiter was completed: resolved with the scan
payload, or rejected with an error message. -/
inductive WaiterOutcome where
  | resolved (result : RebuildScanResult)
  | rejected (msg : String)
deriving Repr, DecidableEq

/-- One entry of the `pending` map (interface `PendingRebuild`), with the
promise and the timer represented by their numeric handles. -/
structure PendingEntry where
  vulnId : String
  cveId : String
  repoOwner : String
  repoName : String
  tagName : String
  createdAt : String
  waiterId : Nat
  timerId : Nat
deriving Repr, DecidableEq

/-- A scheduled `setTimeout` callback: the closure created inside
`registerPendingRebuild` captures `params.vulnId`, `params.cveId` and the
`reject` handle of its own registration. -/
structure TimerInfo where
  timerId : Nat
  vulnId : String
  cveId : String
  waiterId : Nat
  delayMs : Nat
deriving Repr, DecidableEq

/-- The module state of `pendingRebuilds.ts`: the `pending` map (as an
association list keyed by `vulnId`), the set of timers scheduled and not
yet fired, the timer ids passed to `clearTimeout`, the log of waiter
completions, and a fresh-handle counter. -/
structure Store where
  pending : List PendingEntry
  timers : List TimerInfo
  cancelled : List Nat
  completions : List (Nat × WaiterOutcome)
  nextId : Nat
deriving Repr, DecidableEq

/-- The store at module load: `const pending = new Map()`. -/
def initStore : Store :=
  { pending := [], timers := [], cancelled := [], completions := [], nextId := 0 }

/-- `pending.get(v)` / `pending.has(v)` on the association list. -/
def mapGet (l : List PendingEntry) (v : String) : Option PendingEntry :=
  l.find? (fun e => e.vulnId == v)

/-- `pending.delete(v)` on the association list. -/
def mapDelete (l : List PendingEntry) (v : String) : List PendingEntry :=
  l.filter (fun e => e.vulnId != v)

/-- `REBUILD_TIMEOUT_MS = 30 * 60 * 1000; // 30 minutes`. -/
def REBUILD_TIMEOUT_MS : Nat := 30 * 60 * 1000

/-- The parameter object of `registerPendingRebuild`. -/
structure RegisterParams where
  vulnId : String
  cveId : String
  repoOwner : String
  repoName : String
  tagName : String
deriving Repr, DecidableEq

/-- `registerPendingRebuild(params)`: supersede any existing entry for
`params.vulnId` (clear its timer, reject its waiter, delete it), then
create a fresh waiter and a fresh 30-minute timer and insert the new
entry.  `createdAt` stands for `new Date().toISOString()`. -/
def registerPendingRebuild (params : RegisterParams) (createdAt : String) (st : Store) : Store :=
  let st1 :=
    match mapGet st.pending params.vulnId with
    | some existing =>
        { st with
            cancelled := st.cancelled ++ [existing.timerId]
            completions := st.completions ++ [(existing.waiterId, WaiterOutcome.rejected "Superseded by new rebuild")]
            pending := mapDelete st.pending params.vulnId }
    | none => st
  let waiterId := st1.nextId
  let timerId := st1.nextId + 1
  let entry : PendingEntry :=
    { vulnId := params.vulnId, cveId := params.cveId, repoOwner := params.repoOwner,
      repoName := params.repoName, tagName := params.tagName, createdAt := createdAt,
      waiterId := waiterId, timerId := timerId }
  let timer : TimerInfo :=
    { timerId := timerId, vulnId := params.vulnId, cveId := params.cveId,
      waiterId := waiterId, delayMs := REBUILD_TIMEOUT_MS }
  { st1 with
      pending := st1.pending ++ [entry]
      timers := st1.timers ++ [timer]
      nextId := st1.nextId + 2 }

/-- Body of the `setTimeout` callback created in `registerPendingRebuild`:
if an entry for the captured `vulnId` is still present, delete it and
reject the captured waiter with the timeout message. -/
def fireTimeout (t : TimerInfo) (st : Store) : Store :=
  if (mapGet st.pending t.vulnId).isSome then
    { st with
        pending := mapDelete st.pending t.vulnId
        completions := st.completions ++
          [(t.waiterId, WaiterOutcome.rejected
              ("Rebuild timed out after " ++ toString (REBUILD_TIMEOUT_MS / 1000) ++ "s for " ++ t.cveId))] }
  else st

/-- `resolvePendingRebuild(vulnId, result)`: look up by `vulnId`; if found,
clear the timer, resolve the waiter with `result`, delete the entry and
return `true`; otherwise return `false` and leave the store untouched. -/
def resolvePendingRebuild (vulnId : String) (result : RebuildScanResult) (st : Store) : Store × Bool :=
  match mapGet st.pending vulnId with
  | none => (st, false)
  | some entry =>
      ({ st with
           cancelled := st.cancelled ++ [entry.timerId]
           completions := st.completions ++ [(entry.waiterId, WaiterOutcome.resolved result)]
           pending := mapDelete st.pending vulnId }, true)

/-- The projection returned by `listPendingRebuilds()`. -/
structure PendingInfo where
  vulnId : String
  cveId : String
  repoOwner : String
  repoName : String
  tagName : String
  createdAt : String
deriving Repr, DecidableEq

/-- `listPendingRebuilds()`: diagnostic snapshot of the pending map. -/
def listPendingRebuilds (st : Store) : List PendingInfo :=
  st.pending.map (fun e =>
    { vulnId := e.vulnId, cveId := e.cveId, repoOwner := e.repoOwner,
      repoName := e.repoName, tagName := e.tagName, createdAt := e.createdAt })

/-- Externally visible events acting on the store: a register call, a
resolve call (from the webhook handler), or the event loop running a
scheduled timer. -/
inductive StoreEvent where
  | register (params : RegisterParams) (createdAt : String)
  | resolve (vulnId : String) (result : RebuildScanResult)
  | fire (timerId : Nat)
deriving Repr, DecidableEq

/-- One step of the store.  A `fire` event removes the timer from the
schedule (a `setTimeout` runs at most once) and runs its callback only
if the timer was never passed to `clearTimeout` — the JavaScript runtime
guarantee that a cleared timer never fires. -/
def stepStore (st : Store) (e : StoreEvent) : Store :=
  match e with
  | .register p c => registerPendingRebuild p c st
  | .resolve v r => (resolvePendingRebuild v r st).1
  | .fire tid =>
      match st.timers.find? (fun t => t.timerId == tid) with
      | none => st
      | some t =>
          let st1 := { st with timers := st.timers.filter (fun x => x.timerId != tid) }
          if st.cancelled.contains tid then st1 else fireTimeout t st1

-- Sanity checks on the store operations (concrete executions).
example :
    (registerPendingRebuild
      { vulnId := "v1", cveId := "CVE-1", repoOwner := "o", repoName := "r", tagName := "t" }
      "2024-01-01" initStore).pending.length = 1 := by decide

example :
    (resolvePendingRebuild "v1"
      { vulnId := "v1", cveId := "CVE-1", repoOwner := "o", repoName := "r", imageName := "i",
        tag := "t", workflowRunId := 1,
        scanResults := { vulnerabilities := [], totalCount := 0, scanTool := "trivy" },
        buildSuccess := true, timestamp := "ts" }
      (registerPendingRebuild
        { vulnId := "v1", cveId := "CVE-1", repoOwner := "o", repoName := "r", tagName := "t" }
        "2024-01-01" initStore)).2 = true := by decide


/-!
## Remediation state and reducers (`src/backend/agents/state.ts`)
-/

/-- One entry of the step log (`StepLogEntry`).  `timestamp` is the ISO
string produced by `new Date().toISOString()` at entry creation. -/
structure StepLogEntry where
  timestamp : String
  node : String
  message : String
  status : String
deriving Repr, DecidableEq

/-- The accumulating state threaded through the graph
(`RemediationStateAnnotation.State`). -/
structure RemediationStateType where
  vulnerability : Vulnerability
  category : Option String
  classificationReason : String
  rebuildWouldFix : Option Bool
  rebuildCheckReason : String
  ragResults : List StoredFix
  ragFixApplicable : Bool
  proposedFix : String
  fixSteps : String
  patchContent : String
  dockerfileChanges : String
  prUrl : String
  tagName : String
  workflowRunUrl : String
  rebuildVerified : Bool
  rebuildSuccessful : Bool
  rebuildScanResult : Option RebuildScanResult
  status : String
  stepLog : List StepLogEntry
  error : String
deriving Repr, DecidableEq

/-- The initial state for a vulnerability, per the `default` thunks of
`RemediationStateAnnotation` (the input channel holds the vulnerability). -/
def initState (v : Vulnerability) : RemediationStateType :=
  { vulnerability := v, category := none, classificationReason := "",
    rebuildWouldFix := none, rebuildCheckReason := "", ragResults := [],
    ragFixApplicable := false, proposedFix := "", fixSteps := "",
    patchContent := "", dockerfileChanges := "", prUrl := "", tagName := "",
    workflowRunUrl := "", rebuildVerified := false, rebuildSuccessful := false,
    rebuildScanResult := none, status := "pending", stepLog := [], error := "" }

/-- A partial state update returned by a stage.  A field holds `some v`
exactly when the stage's returned object contains that field; `stepLog`
holds the entries the stage returns (the append reducer consumes them). -/
structure StateUpdate where
  category : Option String := none
  classificationReason : Option String := none
  rebuildWouldFix : Option Bool := none
  rebuildCheckReason : Option String := none
  ragResults : Option (List StoredFix) := none
  ragFixApplicable : Option Bool := none
  proposedFix : Option String := none
  fixSteps : Option String := none
  patchContent : Option String := none
  dockerfileChanges : Option String := none
  prUrl : Option String := none
  tagName : Option String := none
  workflowRunUrl : Option String := none
  rebuildVerified : Option Bool := none
  rebuildSuccessful : Option Bool := none
  rebuildScanResult : Option RebuildScanResult := none
  status : Option String := none
  stepLog : List StepLogEntry := []
  error : Option String := none
deriving Repr, DecidableEq

/-- The channel reducers of `RemediationStateAnnotation`: `stepLog` uses
`(prev, next) => [...prev, ...next]`; every other channel uses
`(_, next) => next`, i.e. a provided value overwrites the old one. -/
def applyUpdate (st : RemediationStateType) (u : StateUpdate) : RemediationStateType :=
  { vulnerability := st.vulnerability
    category := match u.category with | some c => some c | none => st.category
    classificationReason := u.classificationReason.getD st.classificationReason
    rebuildWouldFix := match u.rebuildWouldFix with | some b => some b | none => st.rebuildWouldFix
    rebuildCheckReason := u.rebuildCheckReason.getD st.rebuildCheckReason
    ragResults := u.ragResults.getD st.ragResults
    ragFixApplicable := u.ragFixApplicable.getD st.ragFixApplicable
    proposedFix := u.proposedFix.getD st.proposedFix
    fixSteps := u.fixSteps.getD st.fixSteps
    patchContent := u.patchContent.getD st.patchContent
    dockerfileChanges := u.dockerfileChanges.getD st.dockerfileChanges
    prUrl := u.prUrl.getD st.prUrl
    tagName := u.tagName.getD st.tagName
    workflowRunUrl := u.workflowRunUrl.getD st.workflowRunUrl
    rebuildVerified := u.rebuildVerified.getD st.rebuildVerified
    rebuildSuccessful := u.rebuildSuccessful.getD st.rebuildSuccessful
    rebuildScanResult := match u.rebuildScanResult with | some r => some r | none => st.rebuildScanResult
    status := u.status.getD st.status
    stepLog := st.stepLog ++ u.stepLog
    error := u.error.getD st.error }

/-!
## Stage functions (`src/backend/agents/agentNodes.ts`)

Each stage gets its collaborator's answer as an explicit argument:
`ClassifyReply`/`RebuildReply`/`ResearchReply` model the LLM response
after `JSON.parse` (the `unparseable` constructor is the `catch` path);
`Except` models an external call that either returns or throws.  `now`
stands for `new Date().toISOString()`.
-/

/-- Helper `logEntry(node, message, status)` from `agentNodes.ts`. -/
def logEntry (timestamp node message status : String) : StepLogEntry :=
  { timestamp := timestamp, node := node, message := message, status := status }

/-- The classification collaborator's answer: `parsed` carries the JSON
fields (`category` as the raw string, `reason` possibly absent), and
`unparseable` is a response on which `JSON.parse` throws. -/
inductive ClassifyReply where
  | parsed (category : String) (reason : Option String)
  | unparseable
deriving Repr, DecidableEq

/-- Stage `classifyVuln`: parse the collaborator's category (anything but
`"container"` maps to `"code"`), or fall back to the heuristic
`source === "trivy" && !filePath && !!imageName && !/node_modules|site-packages|vendor/.test(filePath ?? "")`. -/
def classifyVuln (now : String) (reply : ClassifyReply) (st : RemediationStateType) : StateUpdate :=
  let vuln := st.vulnerability
  let pair : String × String :=
    match reply with
    | .parsed cat r => ((if cat == "container" then "container" else "code"), r.getD "")
    | .unparseable =>
        let isOsPkg := vuln.source == "trivy" && jsFalsy vuln.filePath && jsTruthy vuln.imageName
          && !(osPathMarkerTest (vuln.filePath.getD ""))
        ((if isOsPkg then "container" else "code"),
         "Fallback heuristic: " ++ (if isOsPkg then "OS-level package in image" else "application dependency"))
  { category := some pair.1, classificationReason := some pair.2, status := some "classifying",
    stepLog := [logEntry now "classifyVuln" ("Classified as " ++ pair.1 ++ ": " ++ pair.2) "completed"] }

/-- The rebuild-check collaborator's answer: `wouldFixIsTrue` is the test
`parsed.rebuildWouldFix === true`. -/
inductive RebuildReply where
  | parsed (wouldFixIsTrue : Bool) (reason : Option String)
  | unparseable
deriving Repr, DecidableEq

/-- Stage `tryRebuild`: a parseable answer yields its verdict; an
unparseable one defaults to `false` with the fixed fallback reason. -/
def tryRebuild (now : String) (reply : RebuildReply) (st : RemediationStateType) : StateUpdate :=
  let pair : Bool × String :=
    match reply with
    | .parsed b r => (b, r.getD "")
    | .unparseable => (false, "Could not determine — proceeding with research.")
  { rebuildWouldFix := some pair.1, rebuildCheckReason := some pair.2, status := some "rebuilding",
    stepLog := [logEntry now "tryRebuild"
      ((if pair.1 then "Rebuild would fix: " else "Rebuild insufficient: ") ++ pair.2) "completed"] }

/-- Stage `searchRAG`: `searchFixes` either returns a list or throws (the
`catch` keeps the initial `[]`/`false`). -/
def searchRAG (now : String) (searchOutcome : Except String (List StoredFix))
    (st : RemediationStateType) : StateUpdate :=
  let pair : List StoredFix × Bool :=
    match searchOutcome with
    | .ok l => (l, !l.isEmpty)
    | .error _ => ([], false)
  { ragResults := some pair.1, ragFixApplicable := some pair.2, status := some "searching_rag",
    stepLog := [logEntry now "searchRAG"
      (if pair.2 then "Found " ++ toString pair.1.length ++ " known fix(es) in RAG database."
       else "No known fixes found in RAG database.") "completed"] }

/-- The research collaborator's answer: `parsed` carries the optional JSON
fields; `unparseable` carries the raw text (the `catch` path stores it as
the proposed fix). -/
inductive ResearchReply where
  | parsed (fixDescription fixSteps patchContent dockerfileChanges : Option String)
  | unparseable (raw : String)
deriving Repr, DecidableEq

/-- Stage `researchFix`. -/
def researchFix (now : String) (reply : ResearchReply) (st : RemediationStateType) : StateUpdate :=
  let q : String × String × String × String :=
    match reply with
    | .parsed fd fs pc dc => (fd.getD "", fs.getD "", pc.getD "", dc.getD "")
    | .unparseable raw => (raw, "Manual review needed — LLM response was not structured.", "", "")
  { proposedFix := some q.1, fixSteps := some q.2.1, patchContent := some q.2.2.1,
    dockerfileChanges := some q.2.2.2, status := some "researching",
    stepLog := [logEntry now "researchFix" ("Fix researched: " ++ q.1.take 120 ++ "...") "completed"] }

/-- Stage `createPRNode`: with no patch content there is nothing to commit
and the stage fails before any external call; otherwise the PR-creation
call either returns a URL or throws. -/
def createPRNode (now : String) (prOutcome : Except String String)
    (st : RemediationStateType) : StateUpdate :=
  let vuln := st.vulnerability
  let files : List (String × String) :=
    if !(st.patchContent == "") then [(vuln.filePath.getD "package.json", st.patchContent)] else []
  if files.length == 0 then
    { status := some "failed", error := some "No patch content generated — cannot create PR.",
      stepLog := [logEntry now "createPR" "No patch content to commit." "failed"] }
  else
    match prOutcome with
    | .ok prUrl =>
        { prUrl := some prUrl, status := some "creating_pr",
          stepLog := [logEntry now "createPR" ("PR created: " ++ prUrl) "completed"] }
    | .error msg =>
        { status := some "failed", error := some ("Failed to create PR: " ++ msg),
          stepLog := [logEntry now "createPR" ("PR creation failed: " ++ msg) "failed"] }

/-!
## Tag/dispatch stage and the workflow-dispatch inputs

`createTagWorkflowNode` calls `createApprovalTagWorkflow` in
`githubTools.ts` with the object literal
`{ tagName, cveId, message, imageName }`.  The tool's dispatch step sends
`inputs: { tag, cve_id, vuln_id: params.vulnId, callback_url: params.callbackUrl, ...image_name }`,
but neither the tool's parameter interface nor the node's call site
carries a `vulnId` or `callbackUrl` member, so both properties are
`undefined` at runtime — modelled as `none` below.
-/

/-- The argument object `createTagWorkflowNode` passes to
`createApprovalTagWorkflow` (no `vulnId`, no `callbackUrl`, and no
repository context). -/
structure TagWorkflowArgs where
  tagName : String
  cveId : String
  message : String
  imageName : Option String
deriving Repr, DecidableEq

/-- The `inputs` object of the `rebuild-image.yml` workflow dispatch. -/
structure WorkflowDispatchInputs where
  tag : String
  cve_id : String
  vuln_id : Option String
  callback_url : Option String
  image_name : Option String
deriving Repr, DecidableEq

/-- The result object of `createApprovalTagWorkflow`. -/
structure TagToolResult where
  tagName : String
  tagUrl : String
  workflowRunUrl : String
  requiresApproval : Bool
deriving Repr, DecidableEq

/-- Observable behaviour of `createApprovalTagWorkflow` on success: the
returned record and the dispatched workflow inputs.  `vuln_id` and
`callback_url` read `params.vulnId`/`params.callbackUrl`, properties the
argument object does not have, hence `none`; the URLs interpolate the
(absent) `repoOwner`/`repoName`, hence the literal `"undefined"`. -/
def createApprovalTagWorkflow (params : TagWorkflowArgs) : TagToolResult × WorkflowDispatchInputs :=
  ({ tagName := params.tagName,
     tagUrl := "https://github.com/undefined/undefined/releases/tag/" ++ params.tagName,
     workflowRunUrl := "https://github.com/undefined/undefined/actions",
     requiresApproval := true },
   { tag := params.tagName, cve_id := params.cveId, vuln_id := none, callback_url := none,
     image_name := params.imageName })

/-- Model of `cveId.toLowerCase().replace(/[^a-z0-9-]/g, "-")`. -/
def sanitizeSlug (s : String) : String :=
  String.mk (s.toLower.toList.map (fun ch =>
    if ch.isLower || ch.isDigit || ch == '-' then ch else '-'))

/-- Model of `new Date().toISOString().replace(/[:.]/g, "-").slice(0, 19)`
applied to the `now` string. -/
def tsSlug (s : String) : String :=
  (String.mk (s.toList.map (fun ch => if ch == ':' || ch == '.' then '-' else ch))).take 19

/-- Stage `createTagWorkflowNode`: build the tag name, call
`createApprovalTagWorkflow` (which either succeeds or throws, selected by
`tagFailure`), and return the node's partial update together with the
workflow-dispatch inputs that reached the external pipeline (if any).
The source node makes no call into `pendingRebuilds.ts`. -/
def createTagWorkflowNode (now : String) (tagFailure : Option String)
    (st : RemediationStateType) : StateUpdate × Option WorkflowDispatchInputs :=
  let vuln := st.vulnerability
  let tagName := "rebuild/" ++ sanitizeSlug vuln.cveId ++ "-" ++ tsSlug now
  match tagFailure with
  | some msg =>
      ({ status := some "failed", error := some ("Failed to create tag/workflow: " ++ msg),
         stepLog := [logEntry now "createTagWorkflow" ("Tag creation failed: " ++ msg) "failed"] },
       none)
  | none =>
      let callResult := createApprovalTagWorkflow
        { tagName := tagName, cveId := vuln.cveId,
          message := "Container rebuild for " ++ vuln.cveId ++ "\n\n" ++ st.proposedFix,
          imageName := vuln.imageName }
      ({ tagName := some callResult.1.tagName,
         workflowRunUrl := some callResult.1.workflowRunUrl,
         status := some "awaiting_approval",
         stepLog := [logEntry now "createTagWorkflow"
           ("Tag \x22" ++ callResult.1.tagName ++
            "\x22 created. Workflow triggered — awaiting user approval at " ++
            callResult.1.workflowRunUrl) "completed"] },
       some callResult.2)

/-- Modelled from the spec: the `verifyRebuildResult` stage.  Its
implementation is absent from the sources (the agent map and the
manual-validation tests import it from `agentNodes.ts`, which does not
define it); per spec §4.4 it is a pure decision over the scan payload:
`rebuildSuccessful` iff the build succeeded and no residual finding
carries the target CVE id; `rebuildVerified` is true whenever a payload
was available; an absent payload still runs the stage with both flags
false and a populated error. -/
def verifyRebuildResult (now : String) (st : RemediationStateType) : StateUpdate :=
  match st.rebuildScanResult with
  | none =>
      { rebuildVerified := some false, rebuildSuccessful := some false,
        status := some "failed",
        error := some "No rebuild scan result available — rebuild was not verified.",
        stepLog := [logEntry now "verifyRebuildResult"
          "No scan payload — verification could not run." "failed"] }
  | some scan =>
      let cveStillPresent := scan.scanResults.vulnerabilities.any
        (fun f => f.cveId == st.vulnerability.cveId)
      let success := scan.buildSuccess && !cveStillPresent
      { rebuildVerified := some true, rebuildSuccessful := some success,
        status := some (if success then "verifying_rebuild" else "failed"),
        stepLog := [logEntry now "verifyRebuildResult"
          (if success then "Rebuild verified — CVE no longer present."
           else "Rebuild did not fix the CVE.")
          (if success then "completed" else "failed")] }

/-- Stage `storeInRAG`: build the `StoredFix` (empty strings become
absent fields via `||`-defaulting, category defaults to `"code"`), hand
it to the external store, and return `resolved` whether or not that
write throws (the `catch` branch also returns `status: "resolved"`, with
a `failed` log entry).  The built fix is returned as the value sent to
the collaborator. -/
def storeInRAG (now uuid : String) (storeOutcome : Except String Unit)
    (st : RemediationStateType) : StateUpdate × StoredFix :=
  let vuln := st.vulnerability
  let fix : StoredFix :=
    { id := uuid, cveId := vuln.cveId, category := st.category.getD "code",
      packageName := vuln.packageName, fixDescription := st.proposedFix,
      fixSteps := st.fixSteps,
      patchContent := if st.patchContent == "" then none else some st.patchContent,
      dockerfileChanges := if st.dockerfileChanges == "" then none else some st.dockerfileChanges,
      prUrl := if st.prUrl == "" then none else some st.prUrl,
      tagName := if st.tagName == "" then none else some st.tagName,
      resolvedAt := now }
  match storeOutcome with
  | .ok _ =>
      ({ status := some "resolved",
         stepLog := [logEntry now "storeInRAG" "Fix stored in RAG database for future reuse." "completed"] },
       fix)
  | .error msg =>
      ({ status := some "resolved",
         stepLog := [logEntry now "storeInRAG" ("Fix applied but RAG storage failed: " ++ msg) "failed"] },
       fix)

/-!
## The routing graph (`src/backend/agents/agentMap.ts`)
-/

/-- The nodes registered on the `StateGraph`. -/
inductive Node where
  | classifyVuln
  | tryRebuild
  | searchRAG
  | researchFix
  | createPR
  | createTagWorkflow
  | verifyRebuildResult
  | storeInRAG
deriving Repr, DecidableEq

/-- The edge function of `buildRemediationAgentMap`: conditional edges
after `classifyVuln`, `tryRebuild`, `searchRAG`, `researchFix` and
`verifyRebuildResult`, unconditional edges `createPR → storeInRAG` and
`createTagWorkflow → verifyRebuildResult`, and `END` as `none`.  The
decision functions read the state already merged with the node's update.
`if (state.rebuildWouldFix)` is JavaScript truthiness on
`boolean | null`. -/
def route (n : Node) (st : RemediationStateType) : Option Node :=
  match n with
  | .classifyVuln =>
      if st.category == some "container" then some .tryRebuild else some .searchRAG
  | .tryRebuild =>
      if st.rebuildWouldFix == some true then some .createTagWorkflow else some .searchRAG
  | .searchRAG =>
      let isContainer := st.category == some "container"
      if st.ragFixApplicable && isContainer then some .createTagWorkflow
      else if st.ragFixApplicable && !isContainer then some .createPR
      else some .researchFix
  | .researchFix =>
      if st.category == some "container" then some .createTagWorkflow else some .createPR
  | .createPR => some .storeInRAG
  | .createTagWorkflow => some .verifyRebuildResult
  | .verifyRebuildResult =>
      if st.rebuildSuccessful then some .storeInRAG else none
  | .storeInRAG => none

/-- The collaborators' behaviour for one run, one slot per external call
(plus the clock value and the uuid the run would draw). -/
structure Env where
  now : String
  uuid : String
  classifyReply : ClassifyReply
  rebuildReply : RebuildReply
  searchOutcome : Except String (List StoredFix)
  researchReply : ResearchReply
  prOutcome : Except String String
  tagFailure : Option String
  storeOutcome : Except String Unit
deriving Repr

/-- Dispatch a node to its stage function. -/
def runNode (env : Env) (n : Node) (st : RemediationStateType) : StateUpdate :=
  match n with
  | .classifyVuln => classifyVuln env.now env.classifyReply st
  | .tryRebuild => tryRebuild env.now env.rebuildReply st
  | .searchRAG => searchRAG env.now env.searchOutcome st
  | .researchFix => researchFix env.now env.researchReply st
  | .createPR => createPRNode env.now env.prOutcome st
  | .createTagWorkflow => (createTagWorkflowNode env.now env.tagFailure st).1
  | .verifyRebuildResult => verifyRebuildResult env.now st
  | .storeInRAG => (storeInRAG env.now env.uuid env.storeOutcome st).1

/-- Execute the graph from node `n`: apply the node's update through the
reducers, then follow the edge function on the merged state; `fuel`
bounds the number of node executions (the graph is acyclic, so any fuel
of at least eight is enough). -/
def runFrom (env : Env) : Nat → Node → RemediationStateType → RemediationStateType
  | 0, _, st => st
  | fuel + 1, n, st =>
      let st1 := applyUpdate st (runNode env n st)
      match route n st1 with
      | none => st1
      | some n2 => runFrom env fuel n2 st1

/-- A full run: the entry edge is `__start__ → classifyVuln`. -/
def runGraph (env : Env) (fuel : Nat) (st : RemediationStateType) : RemediationStateType :=
  runFrom env fuel .classifyVuln st

/-- The system-level run, also threading the pending-rebuild store: no
stage function in `agentNodes.ts` calls into `pendingRebuilds.ts`, so
every step passes the store through unchanged. -/
def runFromWithStore (env : Env) :
    Nat → Node → RemediationStateType × Store → RemediationStateType × Store
  | 0, _, p => p
  | fuel + 1, n, (st, store) =>
      let st1 := applyUpdate st (runNode env n st)
      match route n st1 with
      | none => (st1, store)
      | some n2 => runFromWithStore env fuel n2 (st1, store)


/-!
## Helper lemmas
-/

/-- After `pending.delete(v)`, no element with key `v` survives a filter
for `v`. -/
theorem filter_mapDelete (l : List PendingEntry) (v : String) :
    (mapDelete l v).filter (fun x => x.vulnId == v) = [] := by
  induction l with
  | nil => rfl
  | cons a as ih =>
      cases h : a.vulnId == v with
      | false => simpa [mapDelete, List.filter_cons, bne, h] using ih
      | true => simpa [mapDelete, List.filter_cons, bne, h] using ih

/-- After `pending.delete(v)`, a lookup for `v` misses. -/
theorem mapGet_mapDelete (l : List PendingEntry) (v : String) :
    mapGet (mapDelete l v) v = none := by
  induction l with
  | nil => rfl
  | cons a as ih =>
      cases h : a.vulnId == v with
      | false => simpa [mapGet, mapDelete, List.filter_cons, List.find?, bne, h] using ih
      | true => simpa [mapGet, mapDelete, List.filter_cons, List.find?, bne, h] using ih

/-- A missed lookup means no element carries the key. -/
theorem mapGet_none_no_key (l : List PendingEntry) (v : String)
    (h : mapGet l v = none) : ∀ e ∈ l, (e.vulnId == v) = false := by
  intro e he
  have := List.find?_eq_none.mp h e he
  simpa using this

/-- When a falsy optional string is defaulted with `?? ""`, the result is
the empty string. -/
theorem jsFalsy_getD (o : Option String) (h : jsFalsy o = true) : o.getD "" = "" := by
  cases o with
  | none => rfl
  | some s =>
      simp only [jsFalsy] at h
      simpa [Option.getD] using eq_of_beq h

/-!
## Claim theorems
-/

/-- C3.  Calling `registerPendingRebuild` while an entry for the same
`vulnId` exists cancels the existing entry's timer, completes its waiter
with the superseded failure, and afterwards exactly one live entry for
that `vulnId` remains — the freshly inserted one. -/
theorem register_supersedes_existing_entry
    (params : RegisterParams) (createdAt : String) (st : Store) (e : PendingEntry)
    (hexist : mapGet st.pending params.vulnId = some e) :
    e.timerId ∈ (registerPendingRebuild params createdAt st).cancelled
    ∧ (e.waiterId, WaiterOutcome.rejected "Superseded by new rebuild")
        ∈ (registerPendingRebuild params createdAt st).completions
    ∧ (registerPendingRebuild params createdAt st).pending.filter
        (fun x => x.vulnId == params.vulnId)
      = [{ vulnId := params.vulnId, cveId := params.cveId, repoOwner := params.repoOwner,
           repoName := params.repoName, tagName := params.tagName, createdAt := createdAt,
           waiterId := st.nextId, timerId := st.nextId + 1 }] := by
  unfold registerPendingRebuild
  rw [hexist]
  refine ⟨by simp, by simp, ?_⟩
  simp [List.filter_append, filter_mapDelete]

/-- Witness for C3 at a concrete store holding one entry for `"v1"`. -/
theorem register_supersedes_existing_entry_witness :
    (7 : Nat) ∈ (registerPendingRebuild
        { vulnId := "v1", cveId := "CVE-2", repoOwner := "o", repoName := "r", tagName := "t2" }
        "2024-01-02"
        { pending := [{ vulnId := "v1", cveId := "CVE-1", repoOwner := "o", repoName := "r",
                        tagName := "t1", createdAt := "2024-01-01", waiterId := 6, timerId := 7 }],
          timers := [{ timerId := 7, vulnId := "v1", cveId := "CVE-1", waiterId := 6,
                       delayMs := REBUILD_TIMEOUT_MS }],
          cancelled := [], completions := [], nextId := 8 }).cancelled := by
  exact (register_supersedes_existing_entry
    { vulnId := "v1", cveId := "CVE-2", repoOwner := "o", repoName := "r", tagName := "t2" }
    "2024-01-02"
    { pending := [{ vulnId := "v1", cveId := "CVE-1", repoOwner := "o", repoName := "r",
                    tagName := "t1", createdAt := "2024-01-01", waiterId := 6, timerId := 7 }],
      timers := [{ timerId := 7, vulnId := "v1", cveId := "CVE-1", waiterId := 6,
                   delayMs := REBUILD_TIMEOUT_MS }],
      cancelled := [], completions := [], nextId := 8 }
    { vulnId := "v1", cveId := "CVE-1", repoOwner := "o", repoName := "r",
      tagName := "t1", createdAt := "2024-01-01", waiterId := 6, timerId := 7 }
    (by decide)).1

/-- C4.  `resolvePendingRebuild` on a present entry cancels its timer,
resolves its waiter with the payload, removes the entry and returns
`true`; on a missing `vulnId` it returns `false` and leaves the store
untouched, so a second call for the same `vulnId` is a no-op and no
waiter is completed twice. -/
theorem resolve_once_then_noop (vulnId : String) (result : RebuildScanResult) (st : Store) :
    (∀ e, mapGet st.pending vulnId = some e →
      (resolvePendingRebuild vulnId result st).2 = true
      ∧ (resolvePendingRebuild vulnId result st).1.cancelled = st.cancelled ++ [e.timerId]
      ∧ (resolvePendingRebuild vulnId result st).1.completions
          = st.completions ++ [(e.waiterId, WaiterOutcome.resolved result)]
      ∧ mapGet (resolvePendingRebuild vulnId result st).1.pending vulnId = none)
    ∧ (mapGet st.pending vulnId = none →
      resolvePendingRebuild vulnId result st = (st, false))
    ∧ (∀ result2, (mapGet st.pending vulnId).isSome = true →
      resolvePendingRebuild vulnId result2 (resolvePendingRebuild vulnId result st).1
        = ((resolvePendingRebuild vulnId result st).1, false)) := by
  refine ⟨?_, ?_, ?_⟩
  · intro e he
    unfold resolvePendingRebuild
    rw [he]
    exact ⟨rfl, rfl, rfl, by simpa using mapGet_mapDelete st.pending vulnId⟩
  · intro h
    unfold resolvePendingRebuild
    rw [h]
  · intro result2 h
    obtain ⟨e, he⟩ := Option.isSome_iff_exists.mp h
    have hfirst : mapGet (resolvePendingRebuild vulnId result st).1.pending vulnId = none := by
      unfold resolvePendingRebuild
      rw [he]
      simpa using mapGet_mapDelete st.pending vulnId
    have hmiss : ∀ s : Store, mapGet s.pending vulnId = none →
        resolvePendingRebuild vulnId result2 s = (s, false) := by
      intro s hs
      unfold resolvePendingRebuild
      rw [hs]
    exact hmiss _ hfirst

/-- Witness for C4 at a concrete one-entry store. -/
theorem resolve_once_then_noop_witness :
    (resolvePendingRebuild "v1"
      { vulnId := "v1", cveId := "CVE-1", repoOwner := "o", repoName := "r", imageName := "i",
        tag := "t", workflowRunId := 1,
        scanResults := { vulnerabilities := [], totalCount := 0, scanTool := "trivy" },
        buildSuccess := true, timestamp := "ts" }
      { pending := [{ vulnId := "v1", cveId := "CVE-1", repoOwner := "o", repoName := "r",
                      tagName := "t1", createdAt := "2024-01-01", waiterId := 0, timerId := 1 }],
        timers := [], cancelled := [], completions := [], nextId := 2 }).2 = true := by
  exact ((resolve_once_then_noop "v1"
    { vulnId := "v1", cveId := "CVE-1", repoOwner := "o", repoName := "r", imageName := "i",
      tag := "t", workflowRunId := 1,
      scanResults := { vulnerabilities := [], totalCount := 0, scanTool := "trivy" },
      buildSuccess := true, timestamp := "ts" }
    { pending := [{ vulnId := "v1", cveId := "CVE-1", repoOwner := "o", repoName := "r",
                    tagName := "t1", createdAt := "2024-01-01", waiterId := 0, timerId := 1 }],
      timers := [], cancelled := [], completions := [], nextId := 2 }).1
    { vulnId := "v1", cveId := "CVE-1", repoOwner := "o", repoName := "r",
      tagName := "t1", createdAt := "2024-01-01", waiterId := 0, timerId := 1 }
    (by decide)).1


/-- Behaviour of the timeout callback when the entry is still present. -/
theorem fireTimeout_present (t : TimerInfo) (st : Store) (e : PendingEntry)
    (he : mapGet st.pending t.vulnId = some e) :
    fireTimeout t st = { st with
        pending := mapDelete st.pending t.vulnId,
        completions := st.completions ++ [(t.waiterId, WaiterOutcome.rejected
          ("Rebuild timed out after " ++ toString (REBUILD_TIMEOUT_MS / 1000) ++ "s for " ++ t.cveId))] } := by
  unfold fireTimeout
  rw [he]
  simp

/-- Behaviour of the timeout callback when the entry is already gone. -/
theorem fireTimeout_absent (t : TimerInfo) (st : Store)
    (he : mapGet st.pending t.vulnId = none) : fireTimeout t st = st := by
  unfold fireTimeout
  rw [he]
  simp

/-- If no entry carries key `v`, the diagnostic list contains no `v`. -/
theorem list_all_not_key (st : Store) (v : String) (h : mapGet st.pending v = none) :
    (listPendingRebuilds st).all (fun i => i.vulnId != v) = true := by
  rw [List.all_eq_true]
  intro i hi
  unfold listPendingRebuilds at hi
  obtain ⟨e, he, rfl⟩ := List.mem_map.mp hi
  have hk := mapGet_none_no_key st.pending v h e he
  simp [bne, hk]

/-- C5.  The expiry timer: registration schedules a timer of exactly
`REBUILD_TIMEOUT_MS = 30 * 60 * 1000` milliseconds; a cleared timer never
completes a waiter (and resolution and supersession each clear the
entry's timer); a live timer that fires while the entry is still present
removes it and rejects its waiter with the timeout message naming the
1800-second bound, and does nothing when the entry is already gone; after
the firing, `listPendingRebuilds` no longer contains the `vulnId`. -/
theorem timeout_thirty_minutes_fire_semantics
    (params : RegisterParams) (createdAt : String) (st0 st : Store) (t : TimerInfo)
    (hfind : st.timers.find? (fun x => x.timerId == t.timerId) = some t)
    (hlive : st.cancelled.contains t.timerId = false) :
    (REBUILD_TIMEOUT_MS = 30 * 60 * 1000
      ∧ (registerPendingRebuild params createdAt st0).timers
          = st0.timers ++ [{ timerId := st0.nextId + 1, vulnId := params.vulnId,
                             cveId := params.cveId, waiterId := st0.nextId,
                             delayMs := REBUILD_TIMEOUT_MS }])
    ∧ (∀ e, mapGet st.pending t.vulnId = some e →
        (stepStore st (.fire t.timerId)).completions
          = st.completions ++ [(t.waiterId, WaiterOutcome.rejected
              ("Rebuild timed out after " ++ toString (REBUILD_TIMEOUT_MS / 1000) ++ "s for " ++ t.cveId))]
        ∧ (stepStore st (.fire t.timerId)).pending = mapDelete st.pending t.vulnId)
    ∧ (mapGet st.pending t.vulnId = none →
        (stepStore st (.fire t.timerId)).completions = st.completions
        ∧ (stepStore st (.fire t.timerId)).pending = st.pending)
    ∧ ((listPendingRebuilds (stepStore st (.fire t.timerId))).all
        (fun i => i.vulnId != t.vulnId) = true)
    ∧ (∀ st2 tid, st2.cancelled.contains tid = true →
        (stepStore st2 (.fire tid)).completions = st2.completions
        ∧ (stepStore st2 (.fire tid)).pending = st2.pending)
    ∧ (∀ result e, mapGet st.pending t.vulnId = some e →
        e.timerId ∈ (resolvePendingRebuild t.vulnId result st).1.cancelled)
    ∧ (∀ e, mapGet st.pending params.vulnId = some e →
        e.timerId ∈ (registerPendingRebuild params createdAt st).cancelled) := by
  have hstep : stepStore st (.fire t.timerId)
      = fireTimeout t { st with timers := st.timers.filter (fun x => x.timerId != t.timerId) } := by
    simp only [stepStore]
    rw [hfind, hlive]
    simp
  refine ⟨⟨rfl, ?_⟩, ?_, ?_, ?_, ?_, ?_, ?_⟩
  · unfold registerPendingRebuild
    cases h0 : mapGet st0.pending params.vulnId <;> simp [h0]
  · intro e he
    have he2 : mapGet ({ st with
        timers := st.timers.filter (fun x => x.timerId != t.timerId) } : Store).pending t.vulnId
        = some e := he
    rw [hstep, fireTimeout_present t _ e he2]
    exact ⟨rfl, rfl⟩
  · intro he
    have he2 : mapGet ({ st with
        timers := st.timers.filter (fun x => x.timerId != t.timerId) } : Store).pending t.vulnId
        = none := he
    rw [hstep, fireTimeout_absent t _ he2]
    exact ⟨rfl, rfl⟩
  · rw [hstep]
    cases hpres : mapGet st.pending t.vulnId with
    | some e =>
        have he2 : mapGet ({ st with
            timers := st.timers.filter (fun x => x.timerId != t.timerId) } : Store).pending t.vulnId
            = some e := hpres
        rw [fireTimeout_present t _ e he2]
        exact list_all_not_key _ _ (mapGet_mapDelete st.pending t.vulnId)
    | none =>
        have he2 : mapGet ({ st with
            timers := st.timers.filter (fun x => x.timerId != t.timerId) } : Store).pending t.vulnId
            = none := hpres
        rw [fireTimeout_absent t _ he2]
        exact list_all_not_key _ _ hpres
  · intro st2 tid hcl
    simp only [stepStore]
    cases hf : st2.timers.find? (fun x => x.timerId == tid) with
    | none => exact ⟨rfl, rfl⟩
    | some t2 =>
        have hmem : tid ∈ st2.cancelled := by simpa using hcl
        simp [hmem]
  · intro result e he
    unfold resolvePendingRebuild
    rw [he]
    simp
  · intro e he
    unfold registerPendingRebuild
    rw [he]
    simp

/-- Witness for C5: a concrete store with one live timer and its entry;
the timer fires, the entry is removed and the waiter rejected with the
1800-second timeout message. -/
theorem timeout_thirty_minutes_fire_semantics_witness :
    (stepStore
      { pending := [{ vulnId := "v1", cveId := "CVE-1", repoOwner := "o", repoName := "r",
                      tagName := "t1", createdAt := "2024-01-01", waiterId := 0, timerId := 1 }],
        timers := [{ timerId := 1, vulnId := "v1", cveId := "CVE-1", waiterId := 0,
                     delayMs := REBUILD_TIMEOUT_MS }],
        cancelled := [], completions := [], nextId := 2 }
      (.fire 1)).completions
    = [(0, WaiterOutcome.rejected "Rebuild timed out after 1800s for CVE-1")] := by
  have h := (timeout_thirty_minutes_fire_semantics
    { vulnId := "v1", cveId := "CVE-1", repoOwner := "o", repoName := "r", tagName := "t1" }
    "2024-01-01" initStore
    { pending := [{ vulnId := "v1", cveId := "CVE-1", repoOwner := "o", repoName := "r",
                    tagName := "t1", createdAt := "2024-01-01", waiterId := 0, timerId := 1 }],
      timers := [{ timerId := 1, vulnId := "v1", cveId := "CVE-1", waiterId := 0,
                   delayMs := REBUILD_TIMEOUT_MS }],
      cancelled := [], completions := [], nextId := 2 }
    { timerId := 1, vulnId := "v1", cveId := "CVE-1", waiterId := 0, delayMs := REBUILD_TIMEOUT_MS }
    (by decide) (by decide)).2.1
    { vulnId := "v1", cveId := "CVE-1", repoOwner := "o", repoName := "r",
      tagName := "t1", createdAt := "2024-01-01", waiterId := 0, timerId := 1 }
    (by decide)
  rw [h.1]
  rfl

/-- C6.  The verify stage (modelled from the spec, its implementation
being absent from the sources): on a present scan payload it sets
`rebuildVerified` and computes `rebuildSuccessful` as build success and
absence of the target CVE among the residual findings; on an absent
payload it still runs, with both flags false and a populated error. -/
theorem verify_rebuild_result_spec (now : String) (st : RemediationStateType) :
    (∀ scan, st.rebuildScanResult = some scan →
      (verifyRebuildResult now st).rebuildVerified = some true
      ∧ (verifyRebuildResult now st).rebuildSuccessful
          = some (scan.buildSuccess
              && !(scan.scanResults.vulnerabilities.any
                    (fun f => f.cveId == st.vulnerability.cveId))))
    ∧ (st.rebuildScanResult = none →
      (verifyRebuildResult now st).rebuildVerified = some false
      ∧ (verifyRebuildResult now st).rebuildSuccessful = some false
      ∧ (verifyRebuildResult now st).error ≠ none) := by
  constructor
  · intro scan h
    unfold verifyRebuildResult
    rw [h]
    exact ⟨rfl, rfl⟩
  · intro h
    unfold verifyRebuildResult
    rw [h]
    refine ⟨rfl, rfl, ?_⟩
    simp

/-- Sample container vulnerability used by several witnesses (mirrors the
`sampleContainerVuln` fixture in `manualValidation.ts`). -/
def sampleContainerVuln : Vulnerability :=
  { id := "test-vuln-container-001", cveId := "CVE-2023-4911", packageName := "glibc",
    currentVersion := "2.34-0ubuntu3", fixedVersion := some "2.34-0ubuntu3.2",
    severity := "critical",
    description := "Buffer overflow in GNU C Library (glibc) allows local privilege escalation",
    source := "trivy", imageName := some "ubuntu:22.04", filePath := none,
    createdAt := "2024-02-09T00:00:00.000Z", repoOwner := some "test-org",
    repoName := some "test-repo" }

/-- Sample code vulnerability (mirrors `sampleCodeVuln` in
`manualValidation.ts`). -/
def sampleCodeVuln : Vulnerability :=
  { id := "test-vuln-code-001", cveId := "CVE-2024-29041", packageName := "express",
    currentVersion := "4.18.2", fixedVersion := some "4.19.2", severity := "high",
    description := "Open redirect vulnerability in Express.js",
    source := "snyk", imageName := none, filePath := some "package.json",
    createdAt := "2024-02-09T00:00:00.000Z", repoOwner := some "test-org",
    repoName := some "test-repo" }

/-- Scan payload with a clean build and only an unrelated residual
finding. -/
def cleanScanPayload : RebuildScanResult :=
  { vulnId := "test-vuln-container-001"
    cveId := "CVE-2023-4911"
    repoOwner := "test-org"
    repoName := "test-repo"
    imageName := "ubuntu:22.04"
    tag := "rebuild-1"
    workflowRunId := 1
    scanResults :=
      { vulnerabilities :=
          [{ cveId := "CVE-2024-9999", packageName := "openssl",
             severity := "medium", fixedVersion := some "1.1.1w" }]
        totalCount := 1
        scanTool := "trivy" }
    buildSuccess := true
    timestamp := "ts" }

/-- Scan payload in which the target CVE is still present. -/
def dirtyScanPayload : RebuildScanResult :=
  { vulnId := "test-vuln-container-001"
    cveId := "CVE-2023-4911"
    repoOwner := "test-org"
    repoName := "test-repo"
    imageName := "ubuntu:22.04"
    tag := "rebuild-1"
    workflowRunId := 1
    scanResults :=
      { vulnerabilities :=
          [{ cveId := "CVE-2023-4911", packageName := "glibc",
             severity := "critical", fixedVersion := none }]
        totalCount := 1
        scanTool := "trivy" }
    buildSuccess := true
    timestamp := "ts" }

/-- State holding the clean scan payload. -/
def stateWithCleanScan : RemediationStateType :=
  { initState sampleContainerVuln with rebuildScanResult := some cleanScanPayload }

/-- State holding the payload that still lists the target CVE. -/
def stateWithDirtyScan : RemediationStateType :=
  { initState sampleContainerVuln with rebuildScanResult := some dirtyScanPayload }

/-- Witness for C6: the §8 test vectors (target CVE absent ⇒ success,
target CVE present ⇒ failure) plus the absent-payload case, all through
`verify_rebuild_result_spec` at concrete states. -/
theorem verify_rebuild_result_spec_witness :
    (verifyRebuildResult "t" stateWithCleanScan).rebuildSuccessful = some true
    ∧ (verifyRebuildResult "t" stateWithDirtyScan).rebuildSuccessful = some false
    ∧ (verifyRebuildResult "t" (initState sampleContainerVuln)).rebuildVerified = some false
    ∧ (verifyRebuildResult "t" (initState sampleContainerVuln)).error ≠ none := by
  refine ⟨?_, ?_, ?_, ?_⟩
  · have h := ((verify_rebuild_result_spec "t" stateWithCleanScan).1 cleanScanPayload rfl).2
    rw [h]
    rfl
  · have h := ((verify_rebuild_result_spec "t" stateWithDirtyScan).1 dirtyScanPayload rfl).2
    rw [h]
    rfl
  · exact ((verify_rebuild_result_spec "t" (initState sampleContainerVuln)).2 rfl).1
  · exact ((verify_rebuild_result_spec "t" (initState sampleContainerVuln)).2 rfl).2.2

/-- C7.  The routing decision table of `buildRemediationAgentMap`: after
classification, container goes to the rebuild check and code to
retrieval; after the rebuild check, a true verdict goes to tag-dispatch
and a false one to retrieval; after retrieval, an applicable fix goes to
tag-dispatch (container) or PR creation (code) and no applicable fix
goes to research; after research, container goes to tag-dispatch and
code to PR creation.  Each decision reads only the just-merged state. -/
theorem routing_decision_table (st : RemediationStateType) :
    (st.category = some "container" → route .classifyVuln st = some .tryRebuild)
    ∧ (st.category = some "code" → route .classifyVuln st = some .searchRAG)
    ∧ (st.rebuildWouldFix = some true → route .tryRebuild st = some .createTagWorkflow)
    ∧ (st.rebuildWouldFix = some false → route .tryRebuild st = some .searchRAG)
    ∧ (st.ragFixApplicable = true → st.category = some "container" →
        route .searchRAG st = some .createTagWorkflow)
    ∧ (st.ragFixApplicable = true → st.category = some "code" →
        route .searchRAG st = some .createPR)
    ∧ (st.ragFixApplicable = false → route .searchRAG st = some .researchFix)
    ∧ (st.category = some "container" → route .researchFix st = some .createTagWorkflow)
    ∧ (st.category = some "code" → route .researchFix st = some .createPR) := by
  refine ⟨?_, ?_, ?_, ?_, ?_, ?_, ?_, ?_, ?_⟩ <;> intro h
  · simp [route, h]
  · simp [route, h]
  · simp [route, h]
  · simp [route, h]
  · intro h2
    simp [route, h, h2]
  · intro h2
    simp [route, h, h2]
  · simp [route, h]
  · simp [route, h]
  · simp [route, h]

/-- Witness for C7: the routing table instantiated at the two category
values and at both retrieval outcomes. -/
theorem routing_decision_table_witness :
    route .classifyVuln { initState sampleContainerVuln with category := some "container" }
      = some .tryRebuild
    ∧ route .classifyVuln { initState sampleCodeVuln with category := some "code" }
      = some .searchRAG
    ∧ route .tryRebuild { initState sampleContainerVuln with rebuildWouldFix := some true }
      = some .createTagWorkflow
    ∧ route .tryRebuild { initState sampleContainerVuln with rebuildWouldFix := some false }
      = some .searchRAG
    ∧ route .searchRAG { initState sampleContainerVuln with
        category := some "container", ragFixApplicable := true } = some .createTagWorkflow
    ∧ route .searchRAG { initState sampleCodeVuln with
        category := some "code", ragFixApplicable := true } = some .createPR
    ∧ route .searchRAG { initState sampleCodeVuln with
        category := some "code", ragFixApplicable := false } = some .researchFix
    ∧ route .researchFix { initState sampleContainerVuln with category := some "container" }
      = some .createTagWorkflow
    ∧ route .researchFix { initState sampleCodeVuln with category := some "code" }
      = some .createPR := by
  refine ⟨?_, ?_, ?_, ?_, ?_, ?_, ?_, ?_, ?_⟩
  · exact (routing_decision_table _).1 rfl
  · exact (routing_decision_table _).2.1 rfl
  · exact (routing_decision_table _).2.2.1 rfl
  · exact (routing_decision_table _).2.2.2.1 rfl
  · exact (routing_decision_table _).2.2.2.2.1 rfl rfl
  · exact (routing_decision_table _).2.2.2.2.2.1 rfl rfl
  · exact (routing_decision_table _).2.2.2.2.2.2.1 rfl
  · exact (routing_decision_table _).2.2.2.2.2.2.2.1 rfl
  · exact (routing_decision_table _).2.2.2.2.2.2.2.2 rfl

/-- Across a whole run, the step log only ever grows by appending: the
log of the starting state is an unchanged prefix of the final log. -/
theorem runFrom_stepLog_append (env : Env) (fuel : Nat) (n : Node) (st : RemediationStateType) :
    ∃ tail, (runFrom env fuel n st).stepLog = st.stepLog ++ tail := by
  induction fuel generalizing n st with
  | zero => exact ⟨[], (List.append_nil _).symm⟩
  | succ f ih =>
      simp only [runFrom]
      cases hroute : route n (applyUpdate st (runNode env n st)) with
      | none => exact ⟨(runNode env n st).stepLog, rfl⟩
      | some n2 =>
          obtain ⟨tail, htail⟩ := ih n2 (applyUpdate st (runNode env n st))
          refine ⟨(runNode env n st).stepLog ++ tail, ?_⟩
          rw [htail]
          simp [applyUpdate]

/-- C9.  The channel reducers: a stage's update appends its step-log
entries after all existing entries, leaving every earlier entry in place
and in order, while every other field, when the update carries it, is
overwritten with the stage's value (and kept otherwise); consequently
the starting log is an unchanged prefix of the log of any run. -/
theorem step_log_append_only_fields_overwrite
    (st : RemediationStateType) (u : StateUpdate) :
    (applyUpdate st u).stepLog = st.stepLog ++ u.stepLog
    ∧ (applyUpdate st u).status = u.status.getD st.status
    ∧ (applyUpdate st u).category
        = (match u.category with | some c => some c | none => st.category)
    ∧ (applyUpdate st u).classificationReason
        = u.classificationReason.getD st.classificationReason
    ∧ (applyUpdate st u).rebuildWouldFix
        = (match u.rebuildWouldFix with | some b => some b | none => st.rebuildWouldFix)
    ∧ (applyUpdate st u).rebuildCheckReason = u.rebuildCheckReason.getD st.rebuildCheckReason
    ∧ (applyUpdate st u).ragResults = u.ragResults.getD st.ragResults
    ∧ (applyUpdate st u).ragFixApplicable = u.ragFixApplicable.getD st.ragFixApplicable
    ∧ (applyUpdate st u).proposedFix = u.proposedFix.getD st.proposedFix
    ∧ (applyUpdate st u).fixSteps = u.fixSteps.getD st.fixSteps
    ∧ (applyUpdate st u).patchContent = u.patchContent.getD st.patchContent
    ∧ (applyUpdate st u).dockerfileChanges = u.dockerfileChanges.getD st.dockerfileChanges
    ∧ (applyUpdate st u).prUrl = u.prUrl.getD st.prUrl
    ∧ (applyUpdate st u).tagName = u.tagName.getD st.tagName
    ∧ (applyUpdate st u).workflowRunUrl = u.workflowRunUrl.getD st.workflowRunUrl
    ∧ (applyUpdate st u).rebuildVerified = u.rebuildVerified.getD st.rebuildVerified
    ∧ (applyUpdate st u).rebuildSuccessful = u.rebuildSuccessful.getD st.rebuildSuccessful
    ∧ (applyUpdate st u).error = u.error.getD st.error
    ∧ (applyUpdate st u).vulnerability = st.vulnerability
    ∧ (∀ env fuel n, ∃ tail, (runFrom env fuel n st).stepLog = st.stepLog ++ tail) := by
  refine ⟨rfl, rfl, rfl, rfl, rfl, rfl, rfl, rfl, rfl, rfl, rfl, rfl, rfl, rfl, rfl, rfl,
    rfl, rfl, rfl, ?_⟩
  intro env fuel n
  exact runFrom_stepLog_append env fuel n st

/-- C10.  When the fix-store write throws, `storeInRAG` still returns
terminal status `resolved`, with a step-log entry of status `failed`:
a terminal `resolved` does not imply the `StoredFix` was persisted. -/
theorem store_fix_failure_still_resolved
    (now uuid msg : String) (st : RemediationStateType) :
    (storeInRAG now uuid (Except.error msg) st).1.status = some "resolved"
    ∧ (storeInRAG now uuid (Except.error msg) st).1.stepLog
        = [logEntry now "storeInRAG" ("Fix applied but RAG storage failed: " ++ msg) "failed"] := by
  exact ⟨rfl, rfl⟩

/-- A vulnerability carrying an image identity and no file path, whose
scanner source is not `trivy`. -/
def snykImageVuln : Vulnerability :=
  { id := "vuln-snyk-img", cveId := "CVE-2023-0001", packageName := "openssl",
    currentVersion := "1.1.1", fixedVersion := some "1.1.1w", severity := "high",
    description := "OpenSSL vulnerability reported against a container image",
    source := "snyk", imageName := some "myapp:latest", filePath := none,
    createdAt := "2024-01-01T00:00:00.000Z", repoOwner := none, repoName := none }

/-- C8 counterexample.  On an unparseable collaborator answer, a
vulnerability that carries an image identity and no file path but whose
source is `snyk` is classified `code`, not `container` as the claim
requires (the fallback also demands `source === "trivy"`). -/
theorem classify_fallback_cex :
    jsTruthy snykImageVuln.imageName = true
    ∧ snykImageVuln.filePath = none
    ∧ (classifyVuln "2024-01-01T00:00:00.000Z" ClassifyReply.unparseable
        (initState snykImageVuln)).category = some "code"
    ∧ (classifyVuln "2024-01-01T00:00:00.000Z" ClassifyReply.unparseable
        (initState snykImageVuln)).category ≠ some "container" := by
  refine ⟨rfl, rfl, rfl, ?_⟩
  decide

/-- C8 as amended.  The fallback classifies `container` exactly when the
source scanner is `trivy` in addition to the image-identity-and-no-file-
path condition; in every other case it classifies `code`. -/
theorem classify_fallback_amended (now : String) (st : RemediationStateType) :
    ((st.vulnerability.source = "trivy" ∧ jsFalsy st.vulnerability.filePath = true
        ∧ jsTruthy st.vulnerability.imageName = true) →
      (classifyVuln now ClassifyReply.unparseable st).category = some "container")
    ∧ (((st.vulnerability.source == "trivy" && jsFalsy st.vulnerability.filePath
          && jsTruthy st.vulnerability.imageName) = false) →
      (classifyVuln now ClassifyReply.unparseable st).category = some "code") := by
  constructor
  · rintro ⟨h1, h2, h3⟩
    have hpath : st.vulnerability.filePath.getD "" = "" := jsFalsy_getD _ h2
    unfold classifyVuln
    simp [h1, h2, h3, hpath, osPathMarkerTest, strHasSubstr, listHasInfix]
  · intro h
    unfold classifyVuln
    cases ha : st.vulnerability.source == "trivy" with
    | false => simp [ha]
    | true =>
        cases hb : jsFalsy st.vulnerability.filePath with
        | false => simp [ha, hb]
        | true =>
            cases hc : jsTruthy st.vulnerability.imageName with
            | false => simp [ha, hb, hc]
            | true => rw [ha, hb, hc] at h; simp at h

/-- Witness for C8: both directions of the amended fallback at concrete
vulnerabilities (`trivy` with image and no file path versus `snyk`). -/
theorem classify_fallback_amended_witness :
    (classifyVuln "t" ClassifyReply.unparseable (initState sampleContainerVuln)).category
      = some "container"
    ∧ (classifyVuln "t" ClassifyReply.unparseable (initState snykImageVuln)).category
      = some "code" := by
  constructor
  · exact (classify_fallback_amended "t" (initState sampleContainerVuln)).1 ⟨rfl, rfl, rfl⟩
  · exact (classify_fallback_amended "t" (initState snykImageVuln)).2 rfl

/-- Collaborator behaviour for a code vulnerability whose research step
produces no patch content: classification answers `code`, retrieval
finds nothing, research returns a description but neither patch nor
Dockerfile changes, and the fix-store write succeeds. -/
def envCodeNoPatch : Env :=
  { now := "2024-02-09T12:00:00.000Z"
    uuid := "uuid-0001"
    classifyReply := .parsed "code" (some "application dependency")
    rebuildReply := .unparseable
    searchOutcome := .ok []
    researchReply := .parsed (some "Upgrade express to 4.19.2") (some "1. bump version") none none
    prOutcome := .ok "unused"
    tagFailure := none
    storeOutcome := .ok () }

/-- C1 counterexample.  A concrete run in which the PR-creation stage
returns status `failed` (no patch content), yet the engine takes a
further transition — `storeInRAG` runs after the failed stage, because
the edge `createPR → storeInRAG` is unconditional — and the run ends at
terminal status `resolved`. -/
theorem failed_pr_run_reaches_resolved_cex :
    (runGraph envCodeNoPatch 10 (initState sampleCodeVuln)).status = "resolved"
    ∧ (runGraph envCodeNoPatch 10 (initState sampleCodeVuln)).stepLog.map
        (fun e => (e.node, e.status))
      = [("classifyVuln", "completed"), ("searchRAG", "completed"),
         ("researchFix", "completed"), ("createPR", "failed"), ("storeInRAG", "completed")]
    ∧ (runGraph envCodeNoPatch 10 (initState sampleCodeVuln)).error
      = "No patch content generated — cannot create PR." := by
  exact ⟨rfl, rfl, rfl⟩

/-- C1 as amended.  A failed stage does not halt the engine: whenever the
PR-creation stage returns status `failed`, the edge out of `createPR` is
still taken, `storeInRAG` still runs (appending its entry after the
failed one), and the run terminates with status `resolved`.  Only the
verify stage's verdict gates a terminal action. -/
theorem failed_pr_stage_still_routes_to_store_fix
    (env : Env) (fuel : Nat) (st : RemediationStateType)
    (hfail : (createPRNode env.now env.prOutcome st).status = some "failed") :
    route .createPR (applyUpdate st (createPRNode env.now env.prOutcome st)) = some .storeInRAG
    ∧ (runFrom env (fuel + 2) .createPR st).status = "resolved"
    ∧ (runFrom env (fuel + 2) .createPR st).stepLog
        = st.stepLog ++ (createPRNode env.now env.prOutcome st).stepLog
            ++ (storeInRAG env.now env.uuid env.storeOutcome
                  (applyUpdate st (createPRNode env.now env.prOutcome st))).1.stepLog := by
  refine ⟨rfl, ?_, ?_⟩
  · show (runFrom env (fuel + 1) .storeInRAG
      (applyUpdate st (createPRNode env.now env.prOutcome st))).status = "resolved"
    cases h : env.storeOutcome with
    | ok u =>
        simp only [runFrom, runNode, route]
        simp [applyUpdate, storeInRAG, h]
    | error msg =>
        simp only [runFrom, runNode, route]
        simp [applyUpdate, storeInRAG, h]
  · show (runFrom env (fuel + 1) .storeInRAG
      (applyUpdate st (createPRNode env.now env.prOutcome st))).stepLog = _
    simp only [runFrom, runNode, route]
    simp [applyUpdate]

/-- Witness for C1's amended theorem: a concrete state with empty patch
content makes the PR stage fail, and the run from `createPR` still ends
`resolved` with the store stage's entry appended after the failure. -/
theorem failed_pr_stage_still_routes_to_store_fix_witness :
    (runFrom envCodeNoPatch 2 .createPR (initState sampleCodeVuln)).status = "resolved" := by
  exact (failed_pr_stage_still_routes_to_store_fix envCodeNoPatch 0
    (initState sampleCodeVuln) rfl).2.1

/-- Collaborator behaviour for a container vulnerability whose rebuild
check answers `true` and whose tag/dispatch call succeeds. -/
def envContainerTagSuccess : Env :=
  { now := "2024-02-09T12:00:00.000Z"
    uuid := "uuid-0002"
    classifyReply := .parsed "container" (some "OS package from the base image")
    rebuildReply := .parsed true (some "latest base image already patched")
    searchOutcome := .ok []
    researchReply := .unparseable "n/a"
    prOutcome := .ok "unused"
    tagFailure := none
    storeOutcome := .ok () }

/-- C2.  Evaluated at the failing input (a container vulnerability, a
rebuild check answering `true`, a successful tag/dispatch call): the
tag stage returns `awaiting_approval`, but the workflow dispatch carries
`vuln_id = undefined` and `callback_url = undefined` (neither the node's
call site nor the tool's parameter interface has these members), the
pending-rebuild store stays empty across the entire run — no wait is
ever registered — and instead of suspending until a callback or
timeout, the run reaches the verify stage immediately, which fails for
want of any scan payload. -/
theorem tag_dispatch_registers_no_wait_at_failing_input :
    ((createTagWorkflowNode "2024-02-09T12:00:00.000Z" none
        (initState sampleContainerVuln)).1.status = some "awaiting_approval")
    ∧ ((createTagWorkflowNode "2024-02-09T12:00:00.000Z" none
        (initState sampleContainerVuln)).2.map (fun d => (d.vuln_id, d.callback_url))
      = some (none, none))
    ∧ ((runFromWithStore envContainerTagSuccess 10 .classifyVuln
        (initState sampleContainerVuln, initStore)).2.pending = [])
    ∧ ((runFromWithStore envContainerTagSuccess 10 .classifyVuln
        (initState sampleContainerVuln, initStore)).1.status = "failed")
    ∧ ((runFromWithStore envContainerTagSuccess 10 .classifyVuln
        (initState sampleContainerVuln, initStore)).1.stepLog.map
          (fun e => (e.node, e.status))
      = [("classifyVuln", "completed"), ("tryRebuild", "completed"),
         ("createTagWorkflow", "completed"), ("verifyRebuildResult", "failed")]) := by
  exact ⟨rfl, rfl, rfl, rfl, rfl⟩
end AIVulnAgent
